import Mathlib

/-!
Shallow embedding of `src/app.py`, a small Flask chat relay.

The embedding covers the parts of the program the specification claims are
about:

* the configuration constants (`MODEL_IDENTIFIER`, `SYSTEM_PROMPT`,
  `LMSTUDIO_API_URL`, lines 14-20);
* `get_model_response` (lines 27-52), including the exact exception behaviour
  of the Python field accesses: the `try` block can raise `KeyError` (caught),
  `TypeError`/`AttributeError`/`IndexError` (uncaught), and the `requests`
  call can raise `requests.exceptions.RequestException` (caught; this class
  also covers HTTP error statuses from `raise_for_status` and JSON decode
  failures of `response.json()`);
* the `index` handler (lines 54-60) and the `chat` handler (lines 62-79),
  with the Flask session modelled as an optional transcript
  (`'chat_history' not in session` is `hist = none`).

JSON values returned by the backend are modelled by the inductive `Json`
(numbers as `Int`; the program never inspects numbers, so this loses
nothing the claims need).  The JSON body of a `POST /chat` request is
modelled by its `"message"` field as an `Option String`, following the
declared interface (`{"message": string}`); `request.json.get("message")`
yields `none` when the field is absent, e.g. for body `{}`.

One behavioural note on the `chat` handler: the Flask session is a
cookie-backed dict, and the handler only persists the transcript by the
reassignment `session['chat_history'] = chat_history` after
`get_model_response` returns.  If `get_model_response` raises, the
reassignment never runs and the in-place `append` is not saved (in-place
mutation does not mark a cookie session modified), so the stored transcript
is unchanged and Flask answers with a 500 error page.  The `chat` embedding
reflects this: on an uncaught exception it returns the session unchanged
together with `HttpResp.raised`.
-/

namespace LMApp

/-- Model identifier sent to the backend (`app.py` line 14). -/
def MODEL_IDENTIFIER : String := "local-model"

/-- Configured system prompt (`app.py` line 17). -/
def SYSTEM_PROMPT : String :=
  "You are a helpful and friendly AI assistant. I prefer concise responses."

/-- Configured inference endpoint (`app.py` line 20). -/
def LMSTUDIO_API_URL : String := "http://127.0.0.1:1234/v1/chat/completions"

/-- Role tag of a chat message. -/
inductive Role
  | system
  | user
  | assistant
  deriving DecidableEq, Repr

/-- A role-tagged chat message, as stored in `session['chat_history']`. -/
structure Message where
  role : Role
  content : String
  deriving DecidableEq, Repr

/-- JSON values, as far as the program inspects them. -/
inductive Json
  | null
  | bool (b : Bool)
  | num (n : Int)
  | str (s : String)
  | arr (elems : List Json)
  | obj (fields : List (String × Json))
  deriving Repr

/-- Python exceptions that the body of `get_model_response` can raise.
`keyError` is caught by the handler on line 51; the others escape. -/
inductive PyExn
  | keyError
  | typeError
  | attributeError
  | indexError
  deriving DecidableEq, Repr

/-- Dictionary lookup, first binding wins (Python dicts have unique keys). -/
def lookupKey : List (String × Json) → String → Option Json
  | [], _ => none
  | (k, v) :: rest, key => if k = key then some v else lookupKey rest key

/-- Whether a JSON value is the given string (Python `==` against a `str`). -/
def jsonIsStr (j : Json) (k : String) : Bool :=
  match j with
  | .str s => s = k
  | _ => false

/-- Does `xs` start with the character list `n`? -/
def strStarts : List Char → List Char → Bool
  | [], _ => true
  | _ :: _, [] => false
  | a :: as, b :: bs => a = b && strStarts as bs

/-- Does the character list contain `n` as a contiguous sublist? -/
def subList (n : List Char) : List Char → Bool
  | [] => strStarts n []
  | c :: cs => strStarts n (c :: cs) || subList n cs

/-- Substring containment test (Python `needle in hay` on strings). -/
def strContainsSub (hay needle : String) : Bool :=
  subList needle.data hay.data

/-- Characters removed by Python `str.strip()` (ASCII whitespace). -/
def isPySpace (c : Char) : Bool :=
  c = ' ' || c = '\t' || c = '\n' || c = '\r' || c = '\x0b' || c = '\x0c'

/-- Python `str.strip()`: drop leading and trailing whitespace. -/
def pyStrip (s : String) : String :=
  String.mk (((s.data.dropWhile isPySpace).reverse.dropWhile isPySpace).reverse)

/-- Python `key in value` (line 43): key membership for a dict, element
membership for a list, substring test for a string, `TypeError` otherwise. -/
def jsonContains : Json → String → Except PyExn Bool
  | .obj kvs, k => .ok (lookupKey kvs k).isSome
  | .arr xs, k => .ok (xs.any (fun j => jsonIsStr j k))
  | .str s, k => .ok (strContainsSub s k)
  | _, _ => .error .typeError

/-- Python `value[key]` with a string key (lines 44-45): dict lookup raising
`KeyError` when absent; `TypeError` for every other value. -/
def jsonIndexStr : Json → String → Except PyExn Json
  | .obj kvs, k =>
    match lookupKey kvs k with
    | some v => .ok v
    | none => .error .keyError
  | _, _ => .error .typeError

/-- Python `value[i]` with an integer index (line 44): list or string
indexing (`IndexError` past the end), `KeyError` for a string-keyed dict,
`TypeError` otherwise. -/
def jsonIndexNat : Json → Nat → Except PyExn Json
  | .arr xs, i =>
    match xs.drop i with
    | [] => .error .indexError
    | x :: _ => .ok x
  | .str s, i =>
    match s.data.drop i with
    | [] => .error .indexError
    | c :: _ => .ok (.str (String.mk [c]))
  | .obj _, _ => .error .keyError
  | _, _ => .error .typeError

/-- Python `len(value)` (line 43): defined for lists, strings and dicts. -/
def jsonLen : Json → Except PyExn Nat
  | .arr xs => .ok xs.length
  | .str s => .ok s.data.length
  | .obj kvs => .ok kvs.length
  | _ => .error .typeError

/-- Python `value.strip()` (line 45): only strings have `strip`;
every other value raises `AttributeError`. -/
def jsonStrip : Json → Except PyExn String
  | .str s => .ok (pyStrip s)
  | _ => .error .attributeError

/-- Fixed reply for a response without a usable `choices` list (line 47). -/
def invalidResponseMsg : String :=
  "Error: Received an invalid response from the model."

/-- Fixed reply for a `KeyError` while reading the response (line 52). -/
def invalidFormatMsg : String :=
  "Error: Invalid response format from the API."

/-- Reply built from a caught `RequestException` (line 50). -/
def connectErrorString (details : String) : String :=
  "Error: Could not connect to the LM Studio server. Details: " ++ details

/-- What the backend does for one call: either the HTTP exchange completes
and `response.json()` yields a JSON value, or the `requests` machinery
raises a `RequestException` (connection failure, HTTP error status from
`raise_for_status`, or JSON decode failure) carrying its message text. -/
inductive BackendResult
  | ok (body : Json)
  | requestError (details : String)

/-- Request body built on lines 32-36: `{model, messages, temperature}`. -/
structure RequestPayload where
  model : String
  messages : List Message
  temperature : ℚ
  deriving DecidableEq

/-- The outbound HTTP POST of line 39: URL, JSON payload, timeout. -/
structure OutboundCall where
  url : String
  payload : RequestPayload
  timeoutSeconds : Nat
  deriving DecidableEq

/-- The call `requests.post(LMSTUDIO_API_URL, headers=..., json=payload,
timeout=120)` as issued for a given conversation history (lines 31-39). -/
def outboundCall (conversation_history : List Message) : OutboundCall :=
  { url := LMSTUDIO_API_URL
    payload :=
      { model := MODEL_IDENTIFIER
        messages := conversation_history
        temperature := (7 : ℚ) / 10 }
    timeoutSeconds := 120 }

/-- Body of the `try` block on lines 43-47 applied to the decoded response:
evaluates `'choices' in response_json and len(response_json['choices']) > 0`,
then either reads `response_json['choices'][0]['message']['content'].strip()`
or returns the fixed invalid-response reply.  Errors are the Python
exceptions the corresponding accesses raise. -/
def tryBody (response_json : Json) : Except PyExn String :=
  match jsonContains response_json "choices" with
  | .error e => .error e
  | .ok hasChoices =>
    match
      (if hasChoices then
        match jsonIndexStr response_json "choices" with
        | .error e => .error e
        | .ok cs =>
          match jsonLen cs with
          | .error e => .error e
          | .ok n => .ok (decide (0 < n))
      else (.ok false : Except PyExn Bool)) with
    | .error e => .error e
    | .ok cond =>
      if cond then
        match jsonIndexStr response_json "choices" with
        | .error e => .error e
        | .ok cs =>
          match jsonIndexNat cs 0 with
          | .error e => .error e
          | .ok first =>
            match jsonIndexStr first "message" with
            | .error e => .error e
            | .ok message =>
              match jsonIndexStr message "content" with
              | .error e => .error e
              | .ok content => jsonStrip content
      else .ok invalidResponseMsg

/-- The function `get_model_response(conversation_history)` (lines 27-52),
parametrised by what the backend does.  A `RequestException` is caught and
turned into the connection-error reply; a `KeyError` from the field reads is
caught and turned into the invalid-format reply; any other exception
(`TypeError`, `AttributeError`, `IndexError`) escapes to the caller, which
the `Except.error` result records. -/
def get_model_response (conversation_history : List Message)
    (backend : BackendResult) : Except PyExn String :=
  let _req := outboundCall conversation_history
  match backend with
  | .requestError details => .ok (connectErrorString details)
  | .ok body =>
    match tryBody body with
    | .ok s => .ok s
    | .error .keyError => .ok invalidFormatMsg
    | .error e => .error e

/-- The per-client Flask session, reduced to the one key the program uses:
`hist = none` models `'chat_history' not in session`. -/
structure Session where
  hist : Option (List Message)
  deriving DecidableEq, Repr

/-- HTTP outcome of a `POST /chat` request: the 400 rejection of line 67,
the 200 JSON answer of line 79, or Flask's 500 page for an exception that
escaped the handler. -/
inductive HttpResp
  | badRequest (error : String)
  | good (response : String)
  | raised (e : PyExn)
  deriving DecidableEq, Repr

/-- HTTP status code of a `POST /chat` outcome. -/
def HttpResp.status : HttpResp → Nat
  | .badRequest _ => 400
  | .good _ => 200
  | .raised _ => 500

/-- The `index` handler for `GET /` (lines 54-60): seed
`session['chat_history']` with the system prompt if it is absent. -/
def index (s : Session) : Session :=
  match s.hist with
  | none => ⟨some [⟨Role.system, SYSTEM_PROMPT⟩]⟩
  | some _ => s

/-- The `chat` handler for `POST /chat` (lines 62-79), parametrised by the
`"message"` field of the request body and by the backend's behaviour.
Returns the session after the request together with the HTTP outcome.
An absent or empty message is rejected with 400 before the session is
touched; otherwise the handler reads `session.get('chat_history', [])`,
appends the user message, calls `get_model_response`, and on a normal
return appends the reply and stores the transcript back.  If
`get_model_response` raises, the store never happens (see the header
comment) and Flask answers 500. -/
def chat (s : Session) (message : Option String) (backend : BackendResult) :
    Session × HttpResp :=
  match message with
  | none => (s, .badRequest "No message provided")
  | some m =>
    if m = "" then (s, .badRequest "No message provided")
    else
      let chat_history := s.hist.getD [] ++ [⟨Role.user, m⟩]
      match get_model_response chat_history backend with
      | .ok ai => (⟨some (chat_history ++ [⟨Role.assistant, ai⟩])⟩, .good ai)
      | .error e => (s, .raised e)

/-- One inbound request: `GET /`, or `POST /chat` with a given message field
and a given backend behaviour for the resulting completion call. -/
inductive Event
  | get
  | post (message : Option String) (backend : BackendResult)

/-- Session state after handling one request. -/
def stepS (s : Session) : Event → Session
  | .get => index s
  | .post m b => (chat s m b).1

/-- Session state after handling a sequence of requests. -/
def runS (s : Session) : List Event → Session
  | [] => s
  | e :: rest => runS (stepS s e) rest

/-- Is a `POST /chat` event accepted (message present and non-empty)? -/
def accepted : Event → Bool
  | .get => false
  | .post none _ => false
  | .post (some m) _ => !(m = "")

/-- No accepted `POST /chat` occurs before the first `GET /`: the condition
under which the session is seeded with the system prompt before any turn is
recorded. -/
def initFirst : List Event → Bool
  | [] => true
  | .get :: _ => true
  | e :: rest => !(accepted e) && initFirst rest

/-- The `content` field, when present, is a string. -/
def contentTyped : Option Json → Bool
  | none => true
  | some (.str _) => true
  | some _ => false

/-- The `message` field, when present, is an object with a well-typed
`content` field. -/
def messageTyped : Option Json → Bool
  | none => true
  | some (.obj mkvs) => contentTyped (lookupKey mkvs "content")
  | some _ => false

/-- A choice is an object whose `message` field is well-typed. -/
def choiceTyped : Json → Bool
  | .obj ckvs => messageTyped (lookupKey ckvs "message")
  | _ => false

/-- The `choices` field, when present, is an array whose first element
(if any) is a well-typed choice. -/
def choicesTyped : Option Json → Bool
  | none => true
  | some (.arr []) => true
  | some (.arr (c :: _)) => choiceTyped c
  | some _ => false

/-- The response body is an object whose fields, as far as the program reads
them, have the types the API contract promises; keys may be missing. -/
def respTyped : Json → Bool
  | .obj kvs => choicesTyped (lookupKey kvs "choices")
  | _ => false

/-- The backend either raised a `RequestException` or returned a body whose
present fields are well-typed. -/
def backendTyped : BackendResult → Bool
  | .requestError _ => true
  | .ok j => respTyped j

/-- A transcript that starts with the configured system prompt and contains
exactly one system message. -/
def GoodHist (t : List Message) : Prop :=
  t.head? = some ⟨Role.system, SYSTEM_PROMPT⟩ ∧
    (t.filter (fun m => m.role = Role.system)).length = 1

/-! Helper lemmas. -/

/-- A prefix of `xs` is also a prefix of `xs ++ ys`. -/
lemma strStarts_append (n : List Char) : ∀ xs ys : List Char,
    strStarts n xs = true → strStarts n (xs ++ ys) = true := by
  induction n with
  | nil => intro xs ys _; simp [strStarts]
  | cons a as ih =>
    intro xs ys h
    cases xs with
    | nil => simp [strStarts] at h
    | cons b bs =>
      simp only [strStarts, Bool.and_eq_true, decide_eq_true_eq] at h ⊢
      exact ⟨h.1, ih bs ys h.2⟩

/-- The empty needle is a sublist of everything. -/
lemma subList_nil (l : List Char) : subList [] l = true := by
  cases l <;> simp [subList, strStarts]

/-- A sublist of `xs` is a sublist of `xs ++ ys`. -/
lemma subList_append (n : List Char) : ∀ xs ys : List Char,
    subList n xs = true → subList n (xs ++ ys) = true := by
  intro xs
  induction xs with
  | nil =>
    intro ys h
    cases n with
    | nil => exact subList_nil ys
    | cons a as => simp [subList, strStarts] at h
  | cons c cs ih =>
    intro ys h
    simp only [subList, Bool.or_eq_true] at h
    rcases h with h | h
    · have := strStarts_append n (c :: cs) ys h
      simp only [List.cons_append, subList, Bool.or_eq_true]
      left
      simpa using this
    · simp only [List.cons_append, subList, Bool.or_eq_true]
      right
      exact ih ys h

/-- Concatenation of strings concatenates their character lists. -/
lemma string_data_append (a b : String) : (a ++ b).data = a.data ++ b.data := by
  cases a
  cases b
  rfl

/-- Substring containment survives appending to the haystack on the right. -/
lemma strContainsSub_append (p d n : String) (h : strContainsSub p n = true) :
    strContainsSub (p ++ d) n = true := by
  unfold strContainsSub at h ⊢
  rw [string_data_append]
  exact subList_append n.data p.data d.data h

/-- Appending a user turn and an assistant turn preserves `GoodHist`. -/
lemma goodHist_append (t : List Message) (m a : String) (h : GoodHist t) :
    GoodHist (t ++ [⟨Role.user, m⟩, ⟨Role.assistant, a⟩]) := by
  obtain ⟨h1, h2⟩ := h
  constructor
  · cases t with
    | nil => simp at h1
    | cons x xs => simpa using h1
  · rw [List.filter_append]
    simpa using h2

/-- The seed transcript written by `index` satisfies `GoodHist`. -/
lemma goodHist_seed : GoodHist [⟨Role.system, SYSTEM_PROMPT⟩] := by
  constructor
  · rfl
  · simp

/-- One step from a good session keeps the session good. -/
lemma invSome_step (s : Session) (e : Event)
    (h : ∃ t, s.hist = some t ∧ GoodHist t) :
    ∃ t, (stepS s e).hist = some t ∧ GoodHist t := by
  obtain ⟨t, hs, hg⟩ := h
  obtain ⟨hist⟩ := s
  cases hs
  cases e with
  | get => exact ⟨t, rfl, hg⟩
  | post m b =>
    cases m with
    | none => exact ⟨t, rfl, hg⟩
    | some m =>
      by_cases hm : m = ""
      · subst hm
        exact ⟨t, rfl, hg⟩
      · simp only [stepS, chat, if_neg hm, Option.getD_some]
        cases hr : get_model_response (t ++ [⟨Role.user, m⟩]) b with
        | ok ai =>
          refine ⟨t ++ [⟨Role.user, m⟩, ⟨Role.assistant, ai⟩], ?_, ?_⟩
          · simp [hr, List.append_assoc]
          · exact goodHist_append t m ai hg
        | error e =>
          exact ⟨t, by simp [hr], hg⟩

/-- Invariant of the request machine: starting from a fresh session, if no
accepted chat precedes the first page load, every transcript the session
ever holds is good. -/
lemma runS_good : ∀ (evs : List Event) (s : Session),
    ((s.hist = none ∧ initFirst evs = true) ∨ ∃ t, s.hist = some t ∧ GoodHist t) →
    ∀ t, (runS s evs).hist = some t → GoodHist t := by
  intro evs
  induction evs with
  | nil =>
    intro s h t ht
    simp only [runS] at ht
    rcases h with ⟨hn, _⟩ | ⟨t', hs, hg⟩
    · rw [hn] at ht; cases ht
    · rw [hs] at ht
      cases ht
      exact hg
  | cons e rest ih =>
    intro s h t ht
    simp only [runS] at ht
    refine ih (stepS s e) ?_ t ht
    rcases h with ⟨hn, hi⟩ | hsome
    · obtain ⟨hist⟩ := s
      cases hn
      cases e with
      | get => exact Or.inr ⟨[⟨Role.system, SYSTEM_PROMPT⟩], rfl, goodHist_seed⟩
      | post m b =>
        simp only [initFirst, accepted, Bool.and_eq_true, Bool.not_eq_true'] at hi
        cases m with
        | none => exact Or.inl ⟨rfl, hi.2⟩
        | some m =>
          have hm : m = "" := by simpa using hi.1
          subst hm
          exact Or.inl ⟨rfl, hi.2⟩
    · exact Or.inr (invSome_step s e hsome)

/-! Claim theorems. -/

/-- C1 counterexample: a `POST /chat` handled before any `GET /` builds the
transcript from the empty default `session.get('chat_history', [])`, so the
resulting transcript starts with the user message, not with the configured
system prompt, and contains no system message at all. -/
theorem chat_before_index_breaks_system_prompt :
    (runS ⟨none⟩ [Event.post (some "hi") (BackendResult.requestError "boom")]).hist =
      some [⟨Role.user, "hi"⟩,
        ⟨Role.assistant,
          "Error: Could not connect to the LM Studio server. Details: boom"⟩] ∧
    (⟨Role.user, "hi"⟩ : Message) ≠ ⟨Role.system, SYSTEM_PROMPT⟩ :=
  ⟨rfl, by decide⟩

/-- C1 (amended): after any sequence of `GET /` and `POST /chat` requests in
which no accepted chat request precedes the first page load, whenever the
session holds a transcript, its first message is the configured system
prompt and it contains exactly one system message. -/
theorem transcript_starts_with_system_prompt (evs : List Event)
    (t : List Message) (hinit : initFirst evs = true)
    (ht : (runS ⟨none⟩ evs).hist = some t) :
    t.head? = some ⟨Role.system, SYSTEM_PROMPT⟩ ∧
    (t.filter (fun m => m.role = Role.system)).length = 1 :=
  runS_good evs ⟨none⟩ (Or.inl ⟨rfl, hinit⟩) t ht

/-- Witness for the amended C1 theorem at the one-request run `[GET /]`. -/
theorem transcript_starts_with_system_prompt_witness :
    initFirst [Event.get] = true ∧
    (runS ⟨none⟩ [Event.get]).hist = some [⟨Role.system, SYSTEM_PROMPT⟩] ∧
    (([⟨Role.system, SYSTEM_PROMPT⟩] : List Message).head? =
        some ⟨Role.system, SYSTEM_PROMPT⟩ ∧
      (([⟨Role.system, SYSTEM_PROMPT⟩] : List Message).filter
          (fun m => m.role = Role.system)).length = 1) :=
  ⟨rfl, rfl, transcript_starts_with_system_prompt [Event.get] _ rfl rfl⟩

/-- C2: a `POST /chat` whose body has no `"message"` field (for instance the
body `{}`) or an empty one is rejected with HTTP status 400 and body
`{"error": "No message provided"}`, for every session state and every
backend behaviour. -/
theorem missing_message_rejected_400 (s : Session) (b : BackendResult) :
    chat s none b = (s, HttpResp.badRequest "No message provided") ∧
    chat s (some "") b = (s, HttpResp.badRequest "No message provided") ∧
    (HttpResp.badRequest "No message provided").status = 400 :=
  ⟨rfl, rfl, rfl⟩

/-- C9: `GET /` is idempotent on the transcript: running `index` twice is
the same as once, an existing transcript is returned unchanged, and a
missing one is seeded with the single system-prompt message. -/
theorem index_getOrInit (s : Session) :
    index (index s) = index s ∧
    (∀ t, s.hist = some t → index s = s) ∧
    (s.hist = none → index s = ⟨some [⟨Role.system, SYSTEM_PROMPT⟩]⟩) := by
  obtain ⟨hist⟩ := s
  cases hist with
  | none =>
    refine ⟨rfl, ?_, fun _ => rfl⟩
    intro t ht
    cases ht
  | some t =>
    refine ⟨rfl, fun _ _ => rfl, ?_⟩
    intro h
    cases h

/-- Witness for C9 at the fresh session and at the seeded session. -/
theorem index_getOrInit_witness :
    index ⟨none⟩ = ⟨some [⟨Role.system, SYSTEM_PROMPT⟩]⟩ ∧
    index ⟨some [⟨Role.system, SYSTEM_PROMPT⟩]⟩ =
      ⟨some [⟨Role.system, SYSTEM_PROMPT⟩]⟩ :=
  ⟨(index_getOrInit ⟨none⟩).2.2 rfl,
    (index_getOrInit ⟨some [⟨Role.system, SYSTEM_PROMPT⟩]⟩).2.1 _ rfl⟩

/-- C10: every `POST /chat` answered with status 400 leaves the session
transcript exactly as it was. -/
theorem rejected_chat_leaves_session (s : Session) (msg : Option String)
    (b : BackendResult) (h : (chat s msg b).2.status = 400) :
    (chat s msg b).1 = s := by
  cases msg with
  | none => rfl
  | some m =>
    by_cases hm : m = ""
    · subst hm
      rfl
    · exfalso
      simp only [chat, if_neg hm] at h
      cases hr : get_model_response (s.hist.getD [] ++ [⟨Role.user, m⟩]) b with
      | ok ai => rw [hr] at h; simp [HttpResp.status] at h
      | error e => rw [hr] at h; simp [HttpResp.status] at h

/-- Witness for C10 at a missing message field. -/
theorem rejected_chat_leaves_session_witness :
    (chat ⟨none⟩ none (BackendResult.requestError "x")).2.status = 400 ∧
    (chat ⟨none⟩ none (BackendResult.requestError "x")).1 = ⟨none⟩ :=
  ⟨rfl, rejected_chat_leaves_session ⟨none⟩ none (BackendResult.requestError "x") rfl⟩

/-- Stub backend whose single choice has content `" hi there "`. -/
def stubHiThere : BackendResult :=
  .ok (.obj [("choices",
    .arr [.obj [("message", .obj [("content", .str " hi there ")])]])])

/-- C3 counterexample: with a non-empty message but a backend body whose
`content` is `null`, `message['content'].strip()` raises an uncaught
`AttributeError`; the handler appends nothing at all (the session is
unchanged) and no `"response"` field is produced, so the request does not
append exactly two messages. -/
theorem ill_typed_backend_appends_nothing :
    chat ⟨some [⟨Role.system, SYSTEM_PROMPT⟩]⟩ (some "hi")
        (BackendResult.ok (Json.obj [("choices",
          Json.arr [Json.obj [("message", Json.obj [("content", Json.null)])]])])) =
      (⟨some [⟨Role.system, SYSTEM_PROMPT⟩]⟩, HttpResp.raised PyExn.attributeError) :=
  rfl

/-- C3 (amended): for every `POST /chat` with a non-empty message for which
`get_model_response` returns normally — which covers backend success and
both caught failure kinds, whose error text is the returned string — the
handler appends exactly the user message followed by the assistant message
to the transcript and returns that assistant content in the `"response"`
field. -/
theorem chat_appends_user_then_assistant (s : Session) (m : String)
    (b : BackendResult) (ai : String) (hm : m ≠ "")
    (hok : get_model_response (s.hist.getD [] ++ [⟨Role.user, m⟩]) b =
      Except.ok ai) :
    (chat s (some m) b).1.hist =
      some (s.hist.getD [] ++ [⟨Role.user, m⟩, ⟨Role.assistant, ai⟩]) ∧
    (chat s (some m) b).2 = HttpResp.good ai := by
  have h1 : chat s (some m) b =
      (⟨some ((s.hist.getD [] ++ [⟨Role.user, m⟩]) ++ [⟨Role.assistant, ai⟩])⟩,
        HttpResp.good ai) := by
    simp only [chat, if_neg hm, hok]
  rw [h1]
  exact ⟨by simp, rfl⟩

/-- Witness for the amended C3 theorem on a stub backend. -/
theorem chat_appends_user_then_assistant_witness :
    ("hello" : String) ≠ "" ∧
    get_model_response
        ((⟨some [⟨Role.system, SYSTEM_PROMPT⟩]⟩ : Session).hist.getD [] ++
          [⟨Role.user, "hello"⟩]) stubHiThere = Except.ok "hi there" ∧
    ((chat ⟨some [⟨Role.system, SYSTEM_PROMPT⟩]⟩ (some "hello") stubHiThere).1.hist =
        some ((⟨some [⟨Role.system, SYSTEM_PROMPT⟩]⟩ : Session).hist.getD [] ++
          [⟨Role.user, "hello"⟩, ⟨Role.assistant, "hi there"⟩]) ∧
      (chat ⟨some [⟨Role.system, SYSTEM_PROMPT⟩]⟩ (some "hello") stubHiThere).2 =
        HttpResp.good "hi there") :=
  ⟨by decide, rfl,
    chat_appends_user_then_assistant ⟨some [⟨Role.system, SYSTEM_PROMPT⟩]⟩
      "hello" stubHiThere "hi there" (by decide) rfl⟩

/-- C4: for every backend body of shape
`{"choices": [{"message": {"content": s}}, ...]}` with at least one choice,
`get_model_response` returns the first choice's content with leading and
trailing whitespace stripped; in particular `" hi there "` becomes
`"hi there"`. -/
theorem first_choice_content_trimmed (hist : List Message) (s : String)
    (rest : List Json) :
    get_model_response hist (BackendResult.ok (Json.obj [("choices",
        Json.arr (Json.obj [("message", Json.obj [("content", Json.str s)])] ::
          rest))])) = Except.ok (pyStrip s) ∧
    pyStrip " hi there " = "hi there" := by
  refine ⟨?_, rfl⟩
  simp [get_model_response, tryBody, jsonContains, lookupKey, jsonIndexStr,
    jsonLen, jsonIndexNat, jsonStrip]

/-- C5: a `RequestException` from the backend call (connection failure and
kin) is turned into a reply embedding the underlying error text, that reply
contains the substring `"Could not connect"`, and the `POST /chat` handler
surfaces it as an ordinary 200 response, never as an HTTP error status. -/
theorem connection_failure_reply (hist : List Message) (d : String)
    (s : Session) (m : String) (hm : m ≠ "") :
    get_model_response hist (BackendResult.requestError d) =
      Except.ok (connectErrorString d) ∧
    strContainsSub (connectErrorString d) "Could not connect" = true ∧
    (chat s (some m) (BackendResult.requestError d)).2 =
      HttpResp.good (connectErrorString d) ∧
    ((chat s (some m) (BackendResult.requestError d)).2).status = 200 := by
  refine ⟨rfl, ?_, ?_, ?_⟩
  · unfold connectErrorString
    exact strContainsSub_append _ d _ rfl
  · simp only [chat, if_neg hm]
    rfl
  · simp only [chat, if_neg hm]
    rfl

/-- Witness for C5 with a concrete failure detail text. -/
theorem connection_failure_reply_witness :
    ("hi" : String) ≠ "" ∧
    (get_model_response [] (BackendResult.requestError "boom") =
        Except.ok (connectErrorString "boom") ∧
      strContainsSub (connectErrorString "boom") "Could not connect" = true ∧
      (chat ⟨none⟩ (some "hi") (BackendResult.requestError "boom")).2 =
        HttpResp.good (connectErrorString "boom") ∧
      ((chat ⟨none⟩ (some "hi") (BackendResult.requestError "boom")).2).status =
        200) :=
  ⟨by decide, connection_failure_reply [] "boom" ⟨none⟩ "hi" (by decide)⟩

/-- C6 counterexample: a response whose first choice lacks the `message`
field takes the `KeyError` path and yields the reply
`"Error: Invalid response format from the API."`, which does not contain
the substring `"invalid response"` and differs from the fixed reply used
for a missing `choices` key — so malformed responses do not all produce one
fixed string containing `"invalid response"`. -/
theorem missing_message_field_not_invalid_response :
    get_model_response [] (BackendResult.ok (Json.obj [("choices",
        Json.arr [Json.obj []])])) = Except.ok invalidFormatMsg ∧
    strContainsSub invalidFormatMsg "invalid response" = false ∧
    invalidFormatMsg ≠ invalidResponseMsg :=
  ⟨rfl, rfl, by decide⟩

/-- C6 (amended): a response missing the `choices` key — in particular the
body `{}` — or carrying an empty `choices` list yields the fixed reply
`"Error: Received an invalid response from the model."`, which contains
`"invalid response"`; a response whose first choice lacks `message`, or
whose message object lacks `content`, yields the different fixed reply
`"Error: Invalid response format from the API."`. -/
theorem malformed_response_replies (hist : List Message) :
    strContainsSub invalidResponseMsg "invalid response" = true ∧
    get_model_response hist (BackendResult.ok (Json.obj [])) =
      Except.ok invalidResponseMsg ∧
    (∀ kvs, lookupKey kvs "choices" = none →
      get_model_response hist (BackendResult.ok (Json.obj kvs)) =
        Except.ok invalidResponseMsg) ∧
    (∀ kvs, lookupKey kvs "choices" = some (Json.arr []) →
      get_model_response hist (BackendResult.ok (Json.obj kvs)) =
        Except.ok invalidResponseMsg) ∧
    (∀ kvs ckvs rest,
      lookupKey kvs "choices" = some (Json.arr (Json.obj ckvs :: rest)) →
      lookupKey ckvs "message" = none →
      get_model_response hist (BackendResult.ok (Json.obj kvs)) =
        Except.ok invalidFormatMsg) ∧
    (∀ kvs ckvs mkvs rest,
      lookupKey kvs "choices" = some (Json.arr (Json.obj ckvs :: rest)) →
      lookupKey ckvs "message" = some (Json.obj mkvs) →
      lookupKey mkvs "content" = none →
      get_model_response hist (BackendResult.ok (Json.obj kvs)) =
        Except.ok invalidFormatMsg) := by
  refine ⟨rfl, rfl, ?_, ?_, ?_, ?_⟩
  · intro kvs hc
    simp [get_model_response, tryBody, jsonContains, hc]
  · intro kvs hc
    simp [get_model_response, tryBody, jsonContains, jsonIndexStr, jsonLen, hc]
  · intro kvs ckvs rest hc hm
    simp [get_model_response, tryBody, jsonContains, jsonIndexStr, jsonLen,
      jsonIndexNat, hc, hm]
  · intro kvs ckvs mkvs rest hc hm hcnt
    simp [get_model_response, tryBody, jsonContains, jsonIndexStr, jsonLen,
      jsonIndexNat, hc, hm, hcnt]

/-- Witness for the amended C6 theorem at a choice with no `message`. -/
theorem malformed_response_replies_witness :
    lookupKey [("choices", Json.arr [Json.obj []])] "choices" =
      some (Json.arr [Json.obj []]) ∧
    lookupKey ([] : List (String × Json)) "message" = none ∧
    get_model_response [] (BackendResult.ok (Json.obj [("choices",
      Json.arr [Json.obj []])])) = Except.ok invalidFormatMsg :=
  ⟨rfl, rfl,
    (malformed_response_replies []).2.2.2.2.1 [("choices", Json.arr [Json.obj []])]
      [] [] rfl rfl⟩

/-- C7 counterexample: with the backend response
`{"choices": [{"message": {"content": null}}]}` — a perfectly possible
response value — `get_model_response` raises an uncaught `AttributeError`
instead of returning a string. -/
theorem null_content_raises :
    get_model_response [] (BackendResult.ok (Json.obj [("choices",
        Json.arr [Json.obj [("message", Json.obj [("content", Json.null)])]])])) =
      Except.error PyExn.attributeError ∧
    (get_model_response [] (BackendResult.ok (Json.obj [("choices",
        Json.arr [Json.obj [("message",
          Json.obj [("content", Json.null)])]])]))).toOption = none :=
  ⟨rfl, rfl⟩

/-- C7 (amended): `get_model_response` returns a string and raises nothing
for every backend behaviour that either raises a `RequestException` or
returns a response whose present fields are well-typed (object body,
`choices` an array, first choice an object, `message` an object, `content`
a string); only ill-typed field values can make it raise. -/
theorem well_typed_backend_never_raises (hist : List Message)
    (b : BackendResult) (hb : backendTyped b = true) :
    ∃ reply, get_model_response hist b = Except.ok reply := by
  cases b with
  | requestError d => exact ⟨connectErrorString d, rfl⟩
  | ok j =>
    cases j with
    | null => simp [backendTyped, respTyped] at hb
    | bool v => simp [backendTyped, respTyped] at hb
    | num n => simp [backendTyped, respTyped] at hb
    | str v => simp [backendTyped, respTyped] at hb
    | arr xs => simp [backendTyped, respTyped] at hb
    | obj kvs =>
      simp only [backendTyped, respTyped] at hb
      cases hc : lookupKey kvs "choices" with
      | none =>
        exact ⟨invalidResponseMsg,
          by simp [get_model_response, tryBody, jsonContains, hc]⟩
      | some v =>
        rw [hc] at hb
        cases v with
        | null => simp [choicesTyped] at hb
        | bool v2 => simp [choicesTyped] at hb
        | num n => simp [choicesTyped] at hb
        | str v2 => simp [choicesTyped] at hb
        | obj kvs2 => simp [choicesTyped] at hb
        | arr xs =>
          cases xs with
          | nil =>
            exact ⟨invalidResponseMsg,
              by simp [get_model_response, tryBody, jsonContains,
                jsonIndexStr, jsonLen, hc]⟩
          | cons c cs =>
            simp only [choicesTyped] at hb
            cases c with
            | null => simp [choiceTyped] at hb
            | bool v2 => simp [choiceTyped] at hb
            | num n => simp [choiceTyped] at hb
            | str v2 => simp [choiceTyped] at hb
            | arr ys => simp [choiceTyped] at hb
            | obj ckvs =>
              simp only [choiceTyped] at hb
              cases hm : lookupKey ckvs "message" with
              | none =>
                exact ⟨invalidFormatMsg,
                  by simp [get_model_response, tryBody, jsonContains,
                    jsonIndexStr, jsonLen, jsonIndexNat, hc, hm]⟩
              | some mv =>
                rw [hm] at hb
                cases mv with
                | null => simp [messageTyped] at hb
                | bool v2 => simp [messageTyped] at hb
                | num n => simp [messageTyped] at hb
                | str v2 => simp [messageTyped] at hb
                | arr ys => simp [messageTyped] at hb
                | obj mkvs =>
                  simp only [messageTyped] at hb
                  cases hcnt : lookupKey mkvs "content" with
                  | none =>
                    exact ⟨invalidFormatMsg,
                      by simp [get_model_response, tryBody, jsonContains,
                        jsonIndexStr, jsonLen, jsonIndexNat, hc, hm, hcnt]⟩
                  | some cv =>
                    rw [hcnt] at hb
                    cases cv with
                    | null => simp [contentTyped] at hb
                    | bool v2 => simp [contentTyped] at hb
                    | num n => simp [contentTyped] at hb
                    | arr ys => simp [contentTyped] at hb
                    | obj kvs2 => simp [contentTyped] at hb
                    | str cs2 =>
                      exact ⟨pyStrip cs2,
                        by simp [get_model_response, tryBody, jsonContains,
                          jsonIndexStr, jsonLen, jsonIndexNat, jsonStrip,
                          hc, hm, hcnt]⟩

/-- Stub backend with a well-typed single-choice response. -/
def stubTypedResp : BackendResult :=
  .ok (.obj [("choices", .arr [.obj [("message", .obj [("content", .str "ok")])]])])

/-- Witness for the amended C7 theorem on a well-typed response. -/
theorem well_typed_backend_never_raises_witness :
    backendTyped stubTypedResp = true ∧
    ∃ reply, get_model_response [] stubTypedResp = Except.ok reply :=
  ⟨rfl, well_typed_backend_never_raises [] stubTypedResp rfl⟩

/-- C8: the outbound call for any transcript is a POST to the configured
inference URL with timeout 120 seconds whose body is exactly
`{model, messages, temperature}`: the fixed model identifier, the
transcript unchanged, and the fixed temperature `0.7`. -/
theorem outbound_request_shape (hist : List Message) :
    (outboundCall hist).url = LMSTUDIO_API_URL ∧
    LMSTUDIO_API_URL = "http://127.0.0.1:1234/v1/chat/completions" ∧
    (outboundCall hist).payload.model = MODEL_IDENTIFIER ∧
    MODEL_IDENTIFIER = "local-model" ∧
    (outboundCall hist).payload.messages = hist ∧
    (outboundCall hist).payload.temperature = (7 : ℚ) / 10 ∧
    (outboundCall hist).timeoutSeconds = 120 :=
  ⟨rfl, rfl, rfl, rfl, rfl, rfl, rfl⟩

end LMApp
